import Mathlib

/-!
Shallow embedding of the MediChat Pro application (`src/main.py`) for
verification of its natural-language specification.

The embedding covers the chat-turn handler (`main.py` lines 435-778), the
two ingestion buttons ("Process All S3 Documents", lines 336-368, and
"Process Documents", lines 370-423), and the sidebar quick-action buttons,
together with the command-routing conditions they share.

External collaborators that live in repository modules not present under
`src/` (`app/s3_utils.py`, `app/vectorstore_utils.py`, `app/chat_utils.py`,
`app/email_utils.py`, the LangChain text splitter) are modelled as
components of an explicit environment `Env`: their results are arbitrary
values supplied by the environment, except `validate_email`, which claims
depend on directly and which is therefore modelled from the spec (see its
doc comment).

Python strings are modelled as Lean `String`; `str.lower()` as a
character-wise map of `Char.toLower` (the ASCII fragment); `sub in s` as
contiguous-substring search; the `re.search` call for the email pattern is
modelled by a backtracking matcher specialised to the concrete pattern in
`main.py` line 454.
-/

namespace MediChat

/-- Model of Python `sub in s` on lists of characters: `needle` occurs as a
contiguous sublist of `hay` (the empty needle always occurs). -/
def listContainsSub (needle : List Char) : List Char → Bool
  | [] => needle.isEmpty
  | c :: t => needle.isPrefixOf (c :: t) || listContainsSub needle t

/-- Model of Python `sub in s` for strings (`main.py` membership tests). -/
def strContains (s sub : String) : Bool :=
  listContainsSub sub.data s.data

/-- Model of Python `s.startswith(pre)` (`main.py` `.startswith` tests). -/
def pyStartsWith (s pre : String) : Bool :=
  pre.data.isPrefixOf s.data

/-- Model of Python `s.lower()`: character-wise ASCII lowercasing. -/
def pyLower (s : String) : String :=
  ⟨s.data.map Char.toLower⟩

/-! ### The email-extraction regex of `main.py` line 454

`email_pattern = r'\b[A-Za-z0-9._%+-]+@[A-Za-z0-9.-]+\.[A-Z|a-z]{2,}\b'`,
used with `re.search` (leftmost match, greedy with backtracking), and the
match text taken via `.group()`; the empty string when there is no match
(`main.py` lines 455-459). -/

/-- Character class `[A-Za-z0-9._%+-]` (the local part of the pattern). -/
def isLocalChar (c : Char) : Bool :=
  c.isAlpha || c.isDigit || c == '.' || c == '_' || c == '%' || c == '+' || c == '-'

/-- Character class `[A-Za-z0-9.-]` (the domain part of the pattern). -/
def isDomainChar (c : Char) : Bool :=
  c.isAlpha || c.isDigit || c == '.' || c == '-'

/-- Character class `[A-Z|a-z]` of the pattern: note it literally includes
the bar character, faithfully to the source. -/
def isTldChar (c : Char) : Bool :=
  (('A' ≤ c) && (c ≤ 'Z')) || c == '|' || (('a' ≤ c) && (c ≤ 'z'))

/-- Word characters for the `\b` assertions (ASCII fragment of `\w`). -/
def isWordChar (c : Char) : Bool :=
  c.isAlpha || c.isDigit || c == '_'

/-- Whether the character at index `i` exists and is a word character. -/
def wordAt (cs : List Char) (i : Nat) : Bool :=
  match cs[i]? with
  | some c => isWordChar c
  | none => false

/-- The `\b` assertion: a word boundary between positions `i-1` and `i`. -/
def boundaryAt (cs : List Char) (i : Nat) : Bool :=
  (if i = 0 then false else wordAt cs (i - 1)) != wordAt cs i

/-- Length of the maximal prefix whose characters satisfy `p`. -/
def runLen (p : Char → Bool) : List Char → Nat
  | [] => 0
  | c :: cs => if p c then runLen p cs + 1 else 0

/-- Greedy-with-backtracking match of the trailing `[A-Z|a-z]{2,}\b`:
try run lengths from the argument down to `2`, requiring a word boundary
after the run; returns the end index of the whole match. -/
def tryTld (cs : List Char) (tstart : Nat) : Nat → Option Nat
  | 0 => none
  | 1 => none
  | a + 2 =>
    if boundaryAt cs (tstart + a + 2) then some (tstart + a + 2)
    else tryTld cs tstart (a + 1)

/-- Greedy-with-backtracking match of `[A-Za-z0-9.-]+\.` followed by the
TLD part: the domain run starts at `dstart`; try consuming `d+1` domain
characters (largest first), requiring a dot right after them. -/
def tryDot (cs : List Char) (dstart : Nat) : Nat → Option Nat
  | 0 => none
  | d + 1 =>
    match (if cs[dstart + d + 1]? == some '.' then
             tryTld cs (dstart + d + 2) (runLen isTldChar (cs.drop (dstart + d + 2)))
           else none) with
    | some e => some e
    | none => tryDot cs dstart d

/-- Attempt to match the whole email pattern at start index `i`; returns
the end index of the match.  `[A-Za-z0-9._%+-]+` needs no backtracking
because `'@'` is not a local character, so only the maximal run can be
followed by `'@'`. -/
def matchAt (cs : List Char) (i : Nat) : Option Nat :=
  if boundaryAt cs i then
    let lmax := runLen isLocalChar (cs.drop i)
    if lmax == 0 then none
    else if cs[i + lmax]? == some '@' then
      tryDot cs (i + lmax + 1) (runLen isDomainChar (cs.drop (i + lmax + 1)))
    else none
  else none

/-- Leftmost search: try each start index in order (`re.search`). -/
def searchAux (cs : List Char) (i : Nat) : Nat → Option (Nat × Nat)
  | 0 => none
  | fuel + 1 =>
    match matchAt cs i with
    | some e => some (i, e)
    | none => searchAux cs (i + 1) fuel

/-- Model of `main.py` lines 453-459: extract the first email-shaped
substring of the prompt, or the empty string when there is none. -/
def extractEmail (s : String) : String :=
  match searchAux s.data 0 (s.data.length + 1) with
  | some (i, e) => ⟨(s.data.drop i).take (e - i)⟩
  | none => ""

/-- Split a character list at every dot, keeping empty pieces (the
semantics of Python `s.split('.')`). -/
def splitLabels : List Char → List (List Char)
  | [] => [[]]
  | c :: cs =>
    if c = '.' then [] :: splitLabels cs
    else
      match splitLabels cs with
      | l :: ls => (c :: l) :: ls
      | [] => [[c]]

/-- Modelled from the spec: `validate_email` lives in `app/email_utils.py`,
which is not under `src/`.  The spec (§4.5) describes it as a syntactic
RFC-lite check: non-empty local part, a single `@`, a domain with at least
one dot, and a final label that is alphabetic and of length ≥ 2; §8 further
requires `"user@.com"` to be invalid, which forces every dot-separated
domain label to be non-empty. -/
def validate_email (e : String) : Bool :=
  let cs := e.data
  let localPart := cs.takeWhile (· ≠ '@')
  let rest := cs.dropWhile (· ≠ '@')
  match rest with
  | [] => false
  | _ :: domain =>
    (cs.countP (· == '@') == 1) &&
    !localPart.isEmpty &&
    domain.contains '.' &&
    (let labels := splitLabels domain
     labels.all (fun l => !l.isEmpty) &&
     (match labels.getLast? with
      | some last => decide (2 ≤ last.length) && last.all Char.isAlpha
      | none => false))

/-! ### Command triggers (`main.py` lines 443-602)

Each trigger is a faithful transcription of the corresponding `if`/`elif`
condition of the chat-input handler. -/

/-- The `SendReport` condition, `main.py` lines 443-451. -/
def sendReportTrigger (prompt : String) : Bool :=
  let lower := pyLower prompt
  (strContains lower "send report to" ||
   strContains lower "send analysis report to" ||
   strContains lower "send analytics to" ||
   strContains lower "send this report to" ||
   strContains lower "email report to" ||
   strContains lower "send this repot to" ||
   strContains lower "send report" ||
   (strContains lower "send" && strContains lower "report" && strContains prompt "@") ||
   (strContains lower "send" && strContains lower "repot" && strContains prompt "@")) &&
  strContains prompt "@"

/-- The `SupportTicket` condition, `main.py` lines 514-522. -/
def supportTicketTrigger (prompt : String) : Bool :=
  let lower := pyLower prompt
  pyStartsWith lower "create support ticket" ||
  pyStartsWith lower "support ticket" ||
  strContains lower "create a support ticket" ||
  strContains lower "create support ticket" ||
  strContains lower "send support ticket" ||
  strContains lower "create ticket" ||
  (strContains lower "support" && strContains lower "ticket") ||
  strContains lower "generate ticket" ||
  strContains lower "open ticket"

/-- The `ProcessStoreDocuments` condition, `main.py` line 554. -/
def processS3Trigger (prompt : String) : Bool :=
  pyStartsWith (pyLower prompt) "process s3" ||
  pyStartsWith (pyLower prompt) "process all s3"

/-- The `SaveSession` condition, `main.py` lines 600-602. -/
def saveSessionTrigger (prompt : String) : Bool :=
  pyStartsWith (pyLower prompt) "save session" ||
  strContains (pyLower prompt) "save session" ||
  strContains (pyLower prompt) "save the session"

/-- The command intent a chat turn is routed to (spec §3 `CommandIntent`,
with the invalid-email feedback sub-case of the `SendReport` rule made
explicit, `main.py` lines 496-511). -/
inductive CommandIntent where
  | SendReport (email : String)
  | InvalidEmailFeedback (candidate : String)
  | SupportTicket
  | ProcessStoreDocuments
  | SaveSession
  | PlainQuery
deriving DecidableEq

/-- The priority-ordered router of `main.py` lines 443-602: the `if`/`elif`
chain evaluated on the raw prompt, first match wins. -/
def classifyCommand (prompt : String) : CommandIntent :=
  if sendReportTrigger prompt then
    let email := extractEmail prompt
    if validate_email email then .SendReport email else .InvalidEmailFeedback email
  else if supportTicketTrigger prompt then .SupportTicket
  else if processS3Trigger prompt then .ProcessStoreDocuments
  else if saveSessionTrigger prompt then .SaveSession
  else .PlainQuery

/-- The five command rules of spec §4.5; both outcomes of the `SendReport`
rule (dispatch and invalid-email feedback) belong to rule 1. -/
inductive CommandRule where
  | sendReportRule
  | supportTicketRule
  | processStoreRule
  | saveSessionRule
  | plainQueryRule
deriving DecidableEq

/-- Which of the five rules an intent belongs to. -/
def ruleOf : CommandIntent → CommandRule
  | .SendReport _ => .sendReportRule
  | .InvalidEmailFeedback _ => .sendReportRule
  | .SupportTicket => .supportTicketRule
  | .ProcessStoreDocuments => .processStoreRule
  | .SaveSession => .saveSessionRule
  | .PlainQuery => .plainQueryRule

/-! ### Data model (spec §3) -/

/-- A retrieved chunk as returned by `retrive_relevant_docs`; `main.py`
line 678 reads its `page_content`. -/
structure Doc where
  page_content : String
deriving DecidableEq

/-- The vector index handle produced by `create_faiss_index`
(`app/vectorstore_utils.py` is not under `src/`; for the claims only its
identity as a value stored in the session matters, so it carries the
chunk list it was built from). -/
structure VectorStore where
  chunks : List String
deriving DecidableEq

/-- `create_faiss_index(chunks)` (`main.py` lines 357, 413, 573). -/
def create_faiss_index (chunks : List String) : VectorStore :=
  ⟨chunks⟩

/-- The chat model handle returned by `get_chat_model`. -/
structure ChatModel where
  apiKey : String
deriving DecidableEq

/-- `OPENAI_API_KEY` from `app/config.py` (environment default). -/
def OPENAI_API_KEY : String := "not-needed"

/-- `get_chat_model(OPENAI_API_KEY)` (`main.py` lines 362, 418, 578). -/
def get_chat_model (key : String) : ChatModel :=
  ⟨key⟩

/-- The free-form insight payload (`generate_document_insights` result and
the dict literals of `main.py`), modelled as a key-value list. -/
abbrev Insights := List (String × String)

/-- A chat message as appended to `st.session_state.messages`: a dict with
`role`, `content` and, for retrieval-augmented assistant replies, an
`insights` entry (`main.py` lines 720-724). -/
structure ChatMessage where
  role : String
  content : String
  insights : Option Insights := none
deriving DecidableEq

/-- The session state relevant to the modelled handlers (`main.py` lines
85-95): `messages`, `vectorstore`, `chat_model`, `document_count`,
`receiver_email`.  `none` models Python `None`; Python truthiness of
`receiver_email` is non-emptiness. -/
structure SessionState where
  messages : List ChatMessage
  vectorstore : Option VectorStore
  chat_model : Option ChatModel
  document_count : Nat
  receiver_email : String
deriving DecidableEq

/-- The observable external effects of one turn or button action: calls to
the notification, index, retrieval and completion services, and the
error/warning messages rendered.  `exn` records an uncaught Python
exception terminating the script run. -/
structure TurnLog where
  reportsSent : List String := []
  ticketsSent : Nat := 0
  indexBuilds : List (List String) := []
  retrievalCalls : List (String × Nat) := []
  completionCalls : List String := []
  errorsShown : List String := []
  warningsShown : List String := []
  exn : Option String := none
deriving DecidableEq

/-- Sequential composition of effect logs. -/
def TurnLog.merge (a b : TurnLog) : TurnLog where
  reportsSent := a.reportsSent ++ b.reportsSent
  ticketsSent := a.ticketsSent + b.ticketsSent
  indexBuilds := a.indexBuilds ++ b.indexBuilds
  retrievalCalls := a.retrievalCalls ++ b.retrievalCalls
  completionCalls := a.completionCalls ++ b.completionCalls
  errorsShown := a.errorsShown ++ b.errorsShown
  warningsShown := a.warningsShown ++ b.warningsShown
  exn := a.exn <|> b.exn

/-- The external collaborators (spec §2, §6): results of the notification
dispatcher, the content store processing, the text splitter, the
retriever and the completion service.  They live in repository modules
not under `src/` and are therefore arbitrary environment-supplied
functions. -/
structure Env where
  sendAnalyticsOk : Bool
  sendTicketOk : Bool
  s3Texts : List String
  splitText : String → List String
  retrieve : VectorStore → String → Nat → List Doc
  askChatModel : ChatModel → String → String
  genInsights : VectorStore → String → String → List Doc → Insights
  clearOk : Bool

/-- The user-message dict `{"role": "user", "content": prompt}`. -/
def userMsg (p : String) : ChatMessage :=
  { role := "user", content := p }

/-- The assistant-message dict `{"role": "assistant", "content": r}`. -/
def assistantMsg (r : String) : ChatMessage :=
  { role := "assistant", content := r }

/-! ### The system prompt template (`main.py` lines 681-701) -/

/-- The literal template text before the document count. -/
def sysPromptPart1 : String :=
  "You are MediChat Pro, an intelligent medical document assistant with expertise in medical analysis. \n                Based on the following medical documents, provide accurate, comprehensive, and clinically relevant answers.\n                \n                IMPORTANT INSTRUCTIONS:\n                1. Always base your response on the provided medical documents\n                2. If information is not in the documents, clearly state \"Based on the provided documents, this information is not available\"\n                3. Provide specific medical insights, potential concerns, and recommendations when appropriate\n                4. Use medical terminology accurately\n                5. Include relevant medical context and explanations\n                6. If discussing medications, mention dosage, side effects, and interactions when available\n                7. For symptoms, provide potential causes and recommended actions\n                8. Always emphasize that this is for informational purposes and not a substitute for professional medical advice\n                9. When asked for patient details or all documents, provide information from ALL available documents\n                10. If multiple patients are mentioned, organize the information by patient for clarity\n\n                Medical Documents Context (Total Documents: "

/-- The literal template text between the document count and the context. -/
def sysPromptPart2 : String := "):\n                "

/-- The literal template text between the context and the user question. -/
def sysPromptPart3 : String := "\n\n                User Question: "

/-- The literal template text after the user question. -/
def sysPromptPart4 : String :=
  "\n\n                Please provide a comprehensive medical analysis and answer:"

/-- The f-string of `main.py` lines 681-701 assembling the completion
request from the retrieved-document count, the assembled context and the
user prompt. -/
def buildSystemPrompt (numDocs : Nat) (context prompt : String) : String :=
  sysPromptPart1 ++ toString numDocs ++ sysPromptPart2 ++ context ++
    sysPromptPart3 ++ prompt ++ sysPromptPart4

/-! ### The chat-turn handler (`main.py` lines 435-778) -/

/-- The command-dispatch chain of `main.py` lines 437-654: the `if`/`elif`
chain over the triggers, each matched branch performing its action and
appending the user prompt plus a synthesized assistant reply, and setting
`command_processed`.  Returns the updated state, the effects, and the
final value of `command_processed`. -/
def commandStage (env : Env) (s0 : SessionState) (prompt : String) :
    SessionState × TurnLog × Bool :=
  if sendReportTrigger prompt then
    let email := extractEmail prompt
    if validate_email email then
      let response :=
        if env.sendAnalyticsOk then "Analysis report sent to " ++ email ++ "!"
        else "Failed to send report to " ++ email
      ({ s0 with messages := s0.messages ++ [userMsg prompt, assistantMsg response] },
       { reportsSent := [email] }, true)
    else
      ({ s0 with messages :=
           s0.messages ++ [userMsg prompt, assistantMsg ("Invalid email address: " ++ email)] },
       {}, true)
  else if supportTicketTrigger prompt then
    let response :=
      if env.sendTicketOk then "Support ticket created and sent to sudhanshu@euron.one!"
      else "Failed to create support ticket"
    ({ s0 with messages := s0.messages ++ [userMsg prompt, assistantMsg response] },
     { ticketsSent := 1 }, true)
  else if processS3Trigger prompt then
    if env.s3Texts.isEmpty then
      ({ s0 with messages :=
           s0.messages ++ [userMsg prompt, assistantMsg "No documents could be processed from S3"] },
       {}, true)
    else
      let chunks := env.s3Texts.flatMap env.splitText
      let response :=
        "Successfully processed " ++ toString env.s3Texts.length ++ " S3 documents with " ++
          toString chunks.length ++ " chunks! All S3 documents are now available for chat."
      ({ s0 with
           vectorstore := some (create_faiss_index chunks),
           document_count := env.s3Texts.length,
           chat_model := some (get_chat_model OPENAI_API_KEY),
           messages := s0.messages ++ [userMsg prompt, assistantMsg response] },
       { indexBuilds := [chunks] }, true)
  else if saveSessionTrigger prompt then
    let response :=
      if (s0.receiver_email != "") && validate_email s0.receiver_email then
        if env.sendAnalyticsOk then "Session saved and summary sent to email!"
        else "Failed to save session"
      else "Please enter a valid email address to save session"
    ({ s0 with messages := s0.messages ++ [userMsg prompt, assistantMsg response] },
     { reportsSent :=
         if (s0.receiver_email != "") && validate_email s0.receiver_email then
           [s0.receiver_email]
         else [] },
     true)
  else (s0, {}, false)

/-- The response-generation block of `main.py` lines 668-778.  Because of
the indentation of the source it is NOT guarded by `command_processed`: it
runs for every chat turn and tests the (possibly just-updated) session
state.  When the vector store and the chat model are both set it retrieves
`k = 10` documents, assembles the context, calls the completion service
and appends the assistant reply with insights; otherwise it only renders
an error message, appending nothing. -/
def ragStage (env : Env) (prompt : String) (s : SessionState) :
    SessionState × TurnLog :=
  match s.vectorstore, s.chat_model with
  | some vs, some cm =>
    let relevant_docs := env.retrieve vs prompt 10
    let context := String.intercalate "\n\n" (relevant_docs.map Doc.page_content)
    let system_prompt := buildSystemPrompt relevant_docs.length context prompt
    let response := env.askChatModel cm system_prompt
    let document_insights :=
      ("total_documents", toString s.document_count) ::
        env.genInsights vs prompt response relevant_docs
    ({ s with messages :=
         s.messages ++ [{ role := "assistant", content := response,
                          insights := some document_insights }] },
     { retrievalCalls := [(prompt, 10)], completionCalls := [system_prompt] })
  | _, _ =>
    (s, { errorsShown := ["⚠️ Please upload and process documents first!"] })

/-- One full chat turn (`main.py` lines 435-778): the command chain, then
the user-message append guarded by `command_processed` (lines 656-662),
then the unguarded response-generation block. -/
def handleChatTurn (env : Env) (s0 : SessionState) (prompt : String) :
    SessionState × TurnLog :=
  let r1 := commandStage env s0 prompt
  let s2 :=
    if r1.2.2 then r1.1
    else { r1.1 with messages := r1.1.messages ++ [userMsg prompt] }
  let r3 := ragStage env prompt s2
  (r3.1, r1.2.1.merge r3.2)

/-! ### Button actions -/

/-- The "Process All S3 Documents" button (`main.py` lines 336-368). -/
def processAllS3ButtonAction (env : Env) (s0 : SessionState) :
    SessionState × TurnLog :=
  if env.s3Texts.isEmpty then
    (s0, { warningsShown := ["⚠️ No documents could be processed from S3"] })
  else
    let chunks := env.s3Texts.flatMap env.splitText
    ({ s0 with
         vectorstore := some (create_faiss_index chunks),
         document_count := env.s3Texts.length,
         chat_model := some (get_chat_model OPENAI_API_KEY) },
     { indexBuilds := [chunks] })

/-- The "Process Documents" button (`main.py` lines 374-423).  The
uploaded files are summarised by their count (line 415 assigns
`len(uploaded_files)`) and the extracted texts `s3_results['all_texts']`
are an argument.  When no text was extracted, the source shows the error
of line 398 and then, because line 413 sits outside the `else`, evaluates
the never-assigned name `chunks`: Python raises `NameError` before
`create_faiss_index` is called, so neither the index insertion nor any of
the session assignments of lines 414-419 happens. -/
def processDocumentsButtonAction (env : Env) (s0 : SessionState)
    (uploadedFilesCount : Nat) (all_texts : List String) :
    SessionState × TurnLog :=
  if all_texts.isEmpty then
    (s0, { errorsShown := ["❌ No text could be extracted from the uploaded files"],
           exn := some "NameError: chunks is not defined" })
  else
    let chunks := all_texts.flatMap env.splitText
    ({ s0 with
         vectorstore := some (create_faiss_index chunks),
         document_count := uploadedFilesCount,
         chat_model := some (get_chat_model OPENAI_API_KEY) },
     { indexBuilds := [chunks] })

/-- The sidebar "Send Analysis Report" button (`main.py` lines 188-210):
sends a report when a valid receiver email is configured; mutates no
session field. -/
def sendAnalysisReportButtonAction (_env : Env) (s : SessionState) :
    SessionState × TurnLog :=
  if (s.receiver_email != "") && validate_email s.receiver_email then
    (s, { reportsSent := [s.receiver_email] })
  else
    (s, { errorsShown := ["❌ Please enter a valid email address first"] })

/-- The sidebar "Create Support Ticket" button (`main.py` lines 214-228):
always sends a ticket to the fixed operator address; mutates no session
field. -/
def createSupportTicketButtonAction (_env : Env) (s : SessionState) :
    SessionState × TurnLog :=
  (s, { ticketsSent := 1 })

/-- The sidebar "Save Session" button (`main.py` lines 232-269): sends a
session summary when a valid receiver email is configured; mutates no
session field. -/
def saveSessionButtonAction (_env : Env) (s : SessionState) :
    SessionState × TurnLog :=
  if (s.receiver_email != "") && validate_email s.receiver_email then
    (s, { reportsSent := [s.receiver_email] })
  else
    (s, { errorsShown := ["❌ Please enter a valid email address to save session"] })

/-- The sidebar "Clear All Documents" button (`main.py` lines 302-315):
on success it deletes the `vectorstore` and `document_count` session keys
(re-initialised to `None` and `0` on the rerun); `messages` is untouched. -/
def clearDocumentsButtonAction (env : Env) (s : SessionState) :
    SessionState × TurnLog :=
  if env.clearOk then
    ({ s with vectorstore := none, document_count := 0 }, {})
  else
    (s, { errorsShown := ["❌ Failed to clear ChromaDB collection"] })

/-! ### Spec-side definitions for refinement claims -/

/-- Spec-side definition for claim C9 (spec §4.4): "the concatenation of
the returned chunks' text in the order returned, separated by a blank
line". -/
def specContext : List Doc → String
  | [] => ""
  | [d] => d.page_content
  | d :: ds => d.page_content ++ "\n\n" ++ specContext ds

/-- Spec-side definition for claim C5, the SaveSession matching condition
exactly as the spec states it: "save session" appearing anywhere, or the
text beginning with "save session"/"save the session". -/
def specSaveSessionCondition (s : String) : Bool :=
  strContains (pyLower s) "save session" ||
  pyStartsWith (pyLower s) "save session" ||
  pyStartsWith (pyLower s) "save the session"

/-! ### Helper lemmas -/

theorem intercalate_go_cons (s : String) (l : List String) :
    ∀ (acc x : String),
      String.intercalate.go acc s (x :: l) = acc ++ s ++ String.intercalate.go x s l := by
  induction l with
  | nil => intro acc x; rfl
  | cons y l ih =>
    intro acc x
    show String.intercalate.go (acc ++ s ++ x) s (y :: l) = _
    rw [ih (acc ++ s ++ x) y, ih x y, String.append_assoc, String.append_assoc,
      String.append_assoc x s (String.intercalate.go y s l)]

theorem intercalate_cons_cons (s a b : String) (l : List String) :
    String.intercalate s (a :: b :: l) = a ++ s ++ String.intercalate s (b :: l) := by
  show String.intercalate.go a s (b :: l) = _
  rw [intercalate_go_cons s l a b]
  rfl

/-- The context assembled at `main.py` line 678 coincides with the spec's
description of context assembly (claim C9's bridge). -/
theorem intercalate_eq_specContext (l : List Doc) :
    String.intercalate "\n\n" (l.map Doc.page_content) = specContext l := by
  induction l with
  | nil => rfl
  | cons d ds ih =>
    cases ds with
    | nil => rfl
    | cons d' ds' =>
      have hm : (d :: d' :: ds').map Doc.page_content =
          d.page_content :: d'.page_content :: ds'.map Doc.page_content := rfl
      have hm' : d'.page_content :: ds'.map Doc.page_content =
          (d' :: ds').map Doc.page_content := rfl
      rw [hm, intercalate_cons_cons, hm', ih]
      rfl

theorem toNat_ofNat_of_small {n : Nat} (h : n < 55296) : (Char.ofNat n).toNat = n := by
  unfold Char.ofNat
  rw [dif_pos (Or.inl h)]
  rfl

theorem toLower_eq_at_iff (c : Char) : Char.toLower c = '@' ↔ c = '@' := by
  constructor
  · intro h
    have hdef : Char.toLower c =
        if 65 ≤ c.toNat ∧ c.toNat ≤ 90 then Char.ofNat (c.toNat + 32) else c := rfl
    by_cases hc : 65 ≤ c.toNat ∧ c.toNat ≤ 90
    · exfalso
      rw [hdef, if_pos hc] at h
      have h64 : (Char.ofNat (c.toNat + 32)).toNat = ('@' : Char).toNat := by rw [h]
      rw [toNat_ofNat_of_small (by omega)] at h64
      have : ('@' : Char).toNat = 64 := rfl
      omega
    · rw [hdef, if_neg hc] at h
      exact h
  · intro h
    subst h
    decide

theorem beq_at_toLower (c : Char) : ('@' == Char.toLower c) = ('@' == c) := by
  by_cases h : c = '@'
  · subst h; decide
  · have h1 : ('@' == c) = false := by
      simp only [beq_eq_false_iff_ne, ne_eq]
      exact fun hh => h hh.symm
    have h2 : ('@' == Char.toLower c) = false := by
      simp only [beq_eq_false_iff_ne, ne_eq]
      intro hh
      exact h ((toLower_eq_at_iff c).mp hh.symm)
    rw [h1, h2]

theorem listContainsSub_at_map_toLower (l : List Char) :
    listContainsSub ['@'] (l.map Char.toLower) = listContainsSub ['@'] l := by
  induction l with
  | nil => rfl
  | cons c t ih =>
    show (['@'].isPrefixOf (Char.toLower c :: t.map Char.toLower) ||
          listContainsSub ['@'] (t.map Char.toLower)) =
         (['@'].isPrefixOf (c :: t) || listContainsSub ['@'] t)
    have hp : ∀ (x : Char) (r : List Char), ['@'].isPrefixOf (x :: r) = ('@' == x) := by
      intro x r
      cases r <;> simp [List.isPrefixOf]
    rw [hp, hp, ih, beq_at_toLower]

/-- The raw-prompt `"@" in prompt` test of `main.py` line 451 is
insensitive to lowercasing the prompt. -/
theorem strContains_at_pyLower (s : String) :
    strContains s "@" = strContains (pyLower s) "@" := by
  show listContainsSub ['@'] s.data = listContainsSub ['@'] (s.data.map Char.toLower)
  rw [listContainsSub_at_map_toLower]

/-- Characterisation of the `PlainQuery` fallback: no trigger fired. -/
theorem classify_eq_plainQuery_iff (p : String) :
    classifyCommand p = .PlainQuery ↔
      (sendReportTrigger p = false ∧ supportTicketTrigger p = false ∧
       processS3Trigger p = false ∧ saveSessionTrigger p = false) := by
  cases h1 : sendReportTrigger p <;>
    cases h2 : supportTicketTrigger p <;>
      cases h3 : processS3Trigger p <;>
        cases h4 : saveSessionTrigger p <;>
          cases hv : validate_email (extractEmail p) <;>
            simp [classifyCommand, h1, h2, h3, h4, hv]

/-- Characterisation of the `ProcessStoreDocuments` rule. -/
theorem classify_eq_processStore_iff (p : String) :
    classifyCommand p = .ProcessStoreDocuments ↔
      (sendReportTrigger p = false ∧ supportTicketTrigger p = false ∧
       processS3Trigger p = true) := by
  cases h1 : sendReportTrigger p <;>
    cases h2 : supportTicketTrigger p <;>
      cases h3 : processS3Trigger p <;>
        cases h4 : saveSessionTrigger p <;>
          cases hv : validate_email (extractEmail p) <;>
            simp [classifyCommand, h1, h2, h3, h4, hv]

/-- When no trigger fires the command chain is a no-op with
`command_processed = False`. -/
theorem commandStage_no_trigger (env : Env) (s : SessionState) (p : String)
    (h1 : sendReportTrigger p = false) (h2 : supportTicketTrigger p = false)
    (h3 : processS3Trigger p = false) (h4 : saveSessionTrigger p = false) :
    commandStage env s p = (s, {}, false) := by
  simp [commandStage, h1, h2, h3, h4]

/-- When neither the vector store nor the chat model test succeeds, the
response-generation block only renders an error. -/
theorem ragStage_not_ready (env : Env) (p : String) (s : SessionState)
    (h : s.vectorstore = none ∨ s.chat_model = none) :
    ragStage env p s =
      (s, { errorsShown := ["⚠️ Please upload and process documents first!"] }) := by
  unfold ragStage
  rcases h with h | h
  · rw [h]
  · rw [h]
    cases s.vectorstore <;> rfl

/-- The response-generation block never touches `document_count`. -/
theorem ragStage_document_count (env : Env) (p : String) (s : SessionState) :
    (ragStage env p s).1.document_count = s.document_count := by
  unfold ragStage
  cases s.vectorstore <;> cases s.chat_model <;> rfl

/-- The command chain only ever appends to the conversation. -/
theorem commandStage_messages_append (env : Env) (s : SessionState) (p : String) :
    ∃ t, (commandStage env s p).1.messages = s.messages ++ t := by
  unfold commandStage
  dsimp only
  repeat' split
  all_goals first
    | exact ⟨_, rfl⟩
    | exact ⟨[], (List.append_nil _).symm⟩

/-- The response-generation block only ever appends to the conversation. -/
theorem ragStage_messages_append (env : Env) (p : String) (s : SessionState) :
    ∃ t, (ragStage env p s).1.messages = s.messages ++ t := by
  unfold ragStage
  split
  · exact ⟨_, rfl⟩
  · exact ⟨[], (List.append_nil _).symm⟩

/-- An empty first log merges away. -/
theorem TurnLog.nil_merge (b : TurnLog) : TurnLog.merge {} b = b := by
  cases b
  simp [TurnLog.merge]

/-- Unfolding of a chat turn whose command chain consumed the prompt. -/
theorem handleChatTurn_eq_of_processed (env : Env) (s : SessionState) (p : String)
    (h : (commandStage env s p).2.2 = true) :
    handleChatTurn env s p =
      ((ragStage env p (commandStage env s p).1).1,
       (commandStage env s p).2.1.merge (ragStage env p (commandStage env s p).1).2) := by
  unfold handleChatTurn
  dsimp only
  rw [if_pos h]

/-- Unfolding of a chat turn whose command chain did not fire: the user
message is appended before the response-generation block runs. -/
theorem handleChatTurn_eq_of_not_processed (env : Env) (s : SessionState) (p : String)
    (h : (commandStage env s p).2.2 = false) :
    handleChatTurn env s p =
      ((ragStage env p
          { (commandStage env s p).1 with
              messages := (commandStage env s p).1.messages ++ [userMsg p] }).1,
       (commandStage env s p).2.1.merge
         (ragStage env p
           { (commandStage env s p).1 with
               messages := (commandStage env s p).1.messages ++ [userMsg p] }).2) := by
  unfold handleChatTurn
  dsimp only
  rw [if_neg (by rw [h]; exact Bool.false_ne_true)]

/-- The S3-processing branch of the command chain with a non-empty batch. -/
theorem commandStage_s3 (env : Env) (s : SessionState) (p : String)
    (h1 : sendReportTrigger p = false) (h2 : supportTicketTrigger p = false)
    (h3 : processS3Trigger p = true) (hne : env.s3Texts.isEmpty = false) :
    commandStage env s p =
      ({ s with
           vectorstore := some (create_faiss_index (env.s3Texts.flatMap env.splitText)),
           document_count := env.s3Texts.length,
           chat_model := some (get_chat_model OPENAI_API_KEY),
           messages := s.messages ++
             [userMsg p,
              assistantMsg ("Successfully processed " ++ toString env.s3Texts.length ++
                " S3 documents with " ++ toString (env.s3Texts.flatMap env.splitText).length ++
                " chunks! All S3 documents are now available for chat.")] },
       { indexBuilds := [env.s3Texts.flatMap env.splitText] }, true) := by
  simp [commandStage, h1, h2, h3, hne]

/-- The log of the response-generation block in the ready case. -/
theorem ragStage_log_ready (env : Env) (p : String) (s : SessionState)
    (vs : VectorStore) (cm : ChatModel)
    (hvs : s.vectorstore = some vs) (hcm : s.chat_model = some cm) :
    (ragStage env p s).2 =
      { retrievalCalls := [(p, 10)],
        completionCalls :=
          [buildSystemPrompt (env.retrieve vs p 10).length
            (String.intercalate "\n\n" ((env.retrieve vs p 10).map Doc.page_content)) p] } := by
  unfold ragStage
  rw [hvs, hcm]

/-! ### Test fixtures for witnesses and counterexamples -/

/-- A concrete environment: all external calls succeed, the content store
holds three documents, the splitter is the identity-in-a-list splitter,
and the retriever returns two fixed chunks. -/
def envA : Env where
  sendAnalyticsOk := true
  sendTicketOk := true
  s3Texts := ["t1", "t2", "t3"]
  splitText := fun t => [t]
  retrieve := fun _ _ _ => [⟨"chunk1"⟩, ⟨"chunk2"⟩]
  askChatModel := fun _ _ => "model reply"
  genInsights := fun _ _ _ _ => []
  clearOk := true

/-- A session whose index and chat model are ready. -/
def sReadyA : SessionState where
  messages := []
  vectorstore := some ⟨["c"]⟩
  chat_model := some ⟨"k"⟩
  document_count := 5
  receiver_email := ""

/-- A fresh session: no index, no chat model, five documents counted from
an earlier run. -/
def sFreshA : SessionState where
  messages := []
  vectorstore := none
  chat_model := none
  document_count := 5
  receiver_email := ""

/-! ### Claim theorems -/

/-- C1 (code bug): the claim says a non-PlainQuery turn appends exactly one
user and one assistant message and never invokes retrieval or the
completion service, regardless of index readiness.  Because the
response-generation block of `main.py` line 669 is indented outside the
`if not command_processed:` guard of line 657, a command turn with a ready
index ALSO performs retrieval and completion and appends a second
assistant reply: at the failing input "create support ticket" with a
ready session, the turn logs a retrieval call and a completion call and
ends with three appended messages; with a not-ready session it behaves as
the claim says. -/
theorem C1_nonPlainQuery_turn_not_terminal :
    classifyCommand "create support ticket" = .SupportTicket ∧
    (handleChatTurn envA sReadyA "create support ticket").2.retrievalCalls =
      [("create support ticket", 10)] ∧
    (handleChatTurn envA sReadyA "create support ticket").2.completionCalls.length = 1 ∧
    (handleChatTurn envA sReadyA "create support ticket").1.messages.map ChatMessage.role =
      ["user", "assistant", "assistant"] ∧
    (handleChatTurn envA sFreshA "create support ticket").1.messages.map ChatMessage.role =
      ["user", "assistant"] ∧
    (handleChatTurn envA sFreshA "create support ticket").2.retrievalCalls = [] := by
  refine ⟨by decide, by decide, by decide, by decide, by decide, by decide⟩

/-- C2 (counterexample): the claim says "send report to notanemail" is
routed to invalid-email feedback, but the whole SendReport rule of
`main.py` line 451 is conjoined with `"@" in prompt`, so a report phrase
without an `@` falls through — here all the way to PlainQuery. -/
theorem C2_counterexample_no_at_plainQuery :
    classifyCommand "send report to notanemail" = .PlainQuery := by
  decide

/-- C2 (amended): a report-request turn is routed to the SendReport rule
only when it also contains `@`; when it does and the extracted
email-shaped substring fails validation (in particular when no
email-shaped substring exists and the extraction is empty), the router
classifies the turn as invalid-email feedback, consumes the turn, and
appends the prompt and the invalid-address error reply; it does not fall
through to PlainQuery. -/
theorem C2_invalid_email_feedback_consumes_turn (env : Env) (s : SessionState)
    (p : String) (h1 : sendReportTrigger p = true)
    (hv : validate_email (extractEmail p) = false) :
    classifyCommand p = .InvalidEmailFeedback (extractEmail p) ∧
    ∃ rest, (handleChatTurn env s p).1.messages =
      s.messages ++
        [userMsg p, assistantMsg ("Invalid email address: " ++ extractEmail p)] ++ rest := by
  have hcs : commandStage env s p =
      ({ s with messages :=
           s.messages ++
             [userMsg p, assistantMsg ("Invalid email address: " ++ extractEmail p)] },
       {}, true) := by
    simp [commandStage, h1, hv]
  refine ⟨by simp [classifyCommand, h1, hv], ?_⟩
  obtain ⟨t3, ht3⟩ := ragStage_messages_append env p (commandStage env s p).1
  refine ⟨t3, ?_⟩
  rw [handleChatTurn_eq_of_processed env s p (by rw [hcs]), ht3, hcs, List.append_assoc]

/-- C2 (witness for the amended claim at a concrete input): the prompt
"send report to @@@" contains a report phrase and an `@` but no
email-shaped substring. -/
theorem C2_invalid_email_feedback_witness :
    classifyCommand "send report to @@@" =
      .InvalidEmailFeedback (extractEmail "send report to @@@") ∧
    ∃ rest, (handleChatTurn envA sFreshA "send report to @@@").1.messages =
      sFreshA.messages ++
        [userMsg "send report to @@@",
         assistantMsg ("Invalid email address: " ++ extractEmail "send report to @@@")] ++
        rest :=
  C2_invalid_email_feedback_consumes_turn envA sFreshA "send report to @@@"
    (by decide) (by decide)

/-- C3 (counterexample): the claim says ingestion increments
`documentCount` by the batch size; but `main.py` lines 359, 415 and 575
assign, so a session with 5 counted documents that processes a 3-document
batch via the "process s3" chat command ends with 3, not 5 + 3. -/
theorem C3_counterexample_count_overwritten :
    sFreshA.document_count = 5 ∧
    (handleChatTurn envA sFreshA "process s3").1.document_count = 3 ∧
    (handleChatTurn envA sFreshA "process s3").1.document_count ≠ 5 + 3 := by
  refine ⟨rfl, by decide, by decide⟩

/-- C3 (amended): every successful ingestion action SETS the session's
`documentCount` to the size of the processed batch, overwriting the prior
value: to the number of store documents for the two S3 paths, and to the
number of uploaded files for the Process Documents button. -/
theorem C3_ingestion_sets_document_count (env : Env) (s : SessionState) :
    (env.s3Texts ≠ [] →
      (processAllS3ButtonAction env s).1.document_count = env.s3Texts.length) ∧
    (∀ (n : Nat) (all_texts : List String), all_texts ≠ [] →
      (processDocumentsButtonAction env s n all_texts).1.document_count = n) ∧
    (∀ p, classifyCommand p = .ProcessStoreDocuments → env.s3Texts ≠ [] →
      (handleChatTurn env s p).1.document_count = env.s3Texts.length) := by
  refine ⟨?_, ?_, ?_⟩
  · intro h
    cases hL : env.s3Texts with
    | nil => exact absurd hL h
    | cons a l => simp [processAllS3ButtonAction, hL]
  · intro n all_texts h
    cases hL : all_texts with
    | nil => exact absurd hL h
    | cons a l => simp [processDocumentsButtonAction, hL]
  · intro p hp hne
    obtain ⟨h1, h2, h3⟩ := (classify_eq_processStore_iff p).mp hp
    have hemp : env.s3Texts.isEmpty = false := by
      cases hL : env.s3Texts with
      | nil => exact absurd hL hne
      | cons a l => rfl
    have hcs := commandStage_s3 env s p h1 h2 h3 hemp
    rw [handleChatTurn_eq_of_processed env s p (by rw [hcs])]
    show (ragStage env p (commandStage env s p).1).1.document_count = _
    rw [ragStage_document_count, hcs]

/-- C3 (witness for the amended claim at concrete inputs). -/
theorem C3_ingestion_sets_document_count_witness :
    (processAllS3ButtonAction envA sFreshA).1.document_count = 3 ∧
    (processDocumentsButtonAction envA sFreshA 4 ["a"]).1.document_count = 4 ∧
    (handleChatTurn envA sFreshA "process s3").1.document_count = 3 := by
  obtain ⟨w1, w2, w3⟩ := C3_ingestion_sets_document_count envA sFreshA
  exact ⟨w1 (by decide), w2 4 ["a"] (by decide), w3 "process s3" (by decide) (by decide)⟩

/-- C4 (counterexample): on a PlainQuery turn with the index and chat
model not ready, the handler appends the user message (line 659) and only
renders the error of line 777 without appending an assistant reply, so
the session ends holding an unpaired user message. -/
theorem C4_counterexample_unpaired_user_message :
    (handleChatTurn envA sFreshA "hello").1.messages.map ChatMessage.role = ["user"] ∧
    (handleChatTurn envA sFreshA "hello").2.errorsShown =
      ["⚠️ Please upload and process documents first!"] := by
  refine ⟨by decide, by decide⟩

/-- C4 (amended): a failing PlainQuery turn (index or chat model not
ready) still ends with a reported outcome — the rendered error — but the
no-half-appended-pairs part of the claim fails there: exactly the user
message is appended, with no paired assistant reply. -/
theorem C4_failed_plainQuery_reported_but_dangling (env : Env) (s : SessionState)
    (p : String) (hq : classifyCommand p = .PlainQuery)
    (hnr : s.vectorstore = none ∨ s.chat_model = none) :
    (handleChatTurn env s p).1.messages = s.messages ++ [userMsg p] ∧
    (handleChatTurn env s p).2.errorsShown =
      ["⚠️ Please upload and process documents first!"] := by
  obtain ⟨h1, h2, h3, h4⟩ := (classify_eq_plainQuery_iff p).mp hq
  have hcs := commandStage_no_trigger env s p h1 h2 h3 h4
  have hrs := ragStage_not_ready env p
    { s with messages := s.messages ++ [userMsg p] } hnr
  rw [handleChatTurn_eq_of_not_processed env s p (by rw [hcs]), hcs]
  show ((ragStage env p { s with messages := s.messages ++ [userMsg p] }).1.messages = _) ∧
    ((TurnLog.merge {} (ragStage env p { s with messages := s.messages ++ [userMsg p] }).2).errorsShown = _)
  rw [hrs, TurnLog.nil_merge]
  exact ⟨rfl, rfl⟩

/-- C4 (witness for the amended claim at a concrete input). -/
theorem C4_failed_plainQuery_witness :
    (handleChatTurn envA sFreshA "What is in my lab result?").1.messages =
      sFreshA.messages ++ [userMsg "What is in my lab result?"] ∧
    (handleChatTurn envA sFreshA "What is in my lab result?").2.errorsShown =
      ["⚠️ Please upload and process documents first!"] :=
  C4_failed_plainQuery_reported_but_dangling envA sFreshA "What is in my lab result?"
    (by decide) (Or.inl rfl)

/-- C5 (counterexample): the claim, reading the spec's conditions as
stated, says a prompt that merely contains "save the session" in its
interior does not match SaveSession; the code's rule (`main.py` line 602)
tests containment, so "please save the session" does match, while the
spec-as-stated condition evaluates false on it. -/
theorem C5_counterexample_interior_match :
    classifyCommand "please save the session" = .SaveSession ∧
    specSaveSessionCondition "please save the session" = false := by
  refine ⟨by decide, by decide⟩

/-- C5 (amended): a turn not matching an earlier rule is classified
SaveSession iff its lowercase begins with "save session", or contains
"save session" anywhere, or contains "save the session" ANYWHERE (not
merely at the start); in particular "please save the session" matches. -/
theorem C5_saveSession_rule_contains (s : String) :
    classifyCommand s = .SaveSession ↔
      (sendReportTrigger s = false ∧ supportTicketTrigger s = false ∧
       processS3Trigger s = false ∧
       (pyStartsWith (pyLower s) "save session" ||
        strContains (pyLower s) "save session" ||
        strContains (pyLower s) "save the session") = true) := by
  have hsave : saveSessionTrigger s =
      (pyStartsWith (pyLower s) "save session" ||
       strContains (pyLower s) "save session" ||
       strContains (pyLower s) "save the session") := rfl
  rw [← hsave]
  cases h1 : sendReportTrigger s <;>
    cases h2 : supportTicketTrigger s <;>
      cases h3 : processS3Trigger s <;>
        cases h4 : saveSessionTrigger s <;>
          cases hv : validate_email (extractEmail s) <;>
            simp [classifyCommand, h1, h2, h3, h4, hv]

/-- C6: the conversation is append-only — every chat turn only appends to
the message sequence, and no button action (ingestion, report, ticket,
save, clear) removes or mutates any existing message; the prior sequence
is always a prefix of the new one. -/
theorem C6_conversation_append_only (env : Env) (s : SessionState) (p : String)
    (n : Nat) (texts : List String) :
    (∃ t, (handleChatTurn env s p).1.messages = s.messages ++ t) ∧
    (processAllS3ButtonAction env s).1.messages = s.messages ∧
    (processDocumentsButtonAction env s n texts).1.messages = s.messages ∧
    (sendAnalysisReportButtonAction env s).1.messages = s.messages ∧
    (createSupportTicketButtonAction env s).1.messages = s.messages ∧
    (saveSessionButtonAction env s).1.messages = s.messages ∧
    (clearDocumentsButtonAction env s).1.messages = s.messages := by
  refine ⟨?_, ?_, ?_, ?_, ?_, ?_, ?_⟩
  · obtain ⟨t1, ht1⟩ := commandStage_messages_append env s p
    cases hcp : (commandStage env s p).2.2 with
    | true =>
      obtain ⟨t3, ht3⟩ := ragStage_messages_append env p (commandStage env s p).1
      refine ⟨t1 ++ t3, ?_⟩
      rw [handleChatTurn_eq_of_processed env s p hcp]
      show (ragStage env p (commandStage env s p).1).1.messages = _
      rw [ht3, ht1, List.append_assoc]
    | false =>
      obtain ⟨t3, ht3⟩ := ragStage_messages_append env p
        { (commandStage env s p).1 with
            messages := (commandStage env s p).1.messages ++ [userMsg p] }
      refine ⟨t1 ++ [userMsg p] ++ t3, ?_⟩
      rw [handleChatTurn_eq_of_not_processed env s p hcp]
      show (ragStage env p
        { (commandStage env s p).1 with
            messages := (commandStage env s p).1.messages ++ [userMsg p] }).1.messages = _
      rw [ht3]
      show (commandStage env s p).1.messages ++ [userMsg p] ++ t3 = _
      rw [ht1, List.append_assoc, List.append_assoc, List.append_assoc]
  · unfold processAllS3ButtonAction
    split <;> rfl
  · unfold processDocumentsButtonAction
    split <;> rfl
  · unfold sendAnalysisReportButtonAction
    split <;> rfl
  · rfl
  · unfold saveSessionButtonAction
    split <;> rfl
  · unfold clearDocumentsButtonAction
    split <;> rfl

/-- C7: command classification is deterministic — the router is a pure
function of the prompt, and the three example inputs of the spec classify
as stated: a SendReport with the extracted address, a SupportTicket, and
a PlainQuery. -/
theorem C7_classification_deterministic :
    (∀ s : String, classifyCommand s = classifyCommand s) ∧
    classifyCommand "send report to a@b.com" = .SendReport "a@b.com" ∧
    classifyCommand "create support ticket" = .SupportTicket ∧
    classifyCommand "What does this lab report show?" = .PlainQuery :=
  ⟨fun _ => rfl, by decide, by decide, by decide⟩

/-- C8: when the Process Documents action extracts no text, the failure is
surfaced as a user-visible error message and the action is atomic — the
returned session equals the input session (so `vectorstore`, `chat_model`
and `document_count` are unchanged) and no index build is attempted (the
log's `indexBuilds` is empty); the run then dies with the `NameError` of
`main.py` line 413 before any session assignment. -/
theorem C8_empty_extraction_surfaced_and_atomic (env : Env) (s : SessionState) (n : Nat) :
    processDocumentsButtonAction env s n [] =
      (s, { errorsShown := ["❌ No text could be extracted from the uploaded files"],
            exn := some "NameError: chunks is not defined" }) :=
  rfl

/-- C9: on a PlainQuery turn with a ready index and model, the handler
makes exactly one retrieval call with `k = 10` and one completion call
whose context component is the spec-described assembly: the retrieved
chunks' texts concatenated in the retriever's order, separated by a blank
line, with no re-ranking, filtering or truncation. -/
theorem C9_context_ordered_blankline_concat (env : Env) (s : SessionState)
    (p : String) (vs : VectorStore) (cm : ChatModel)
    (hq : classifyCommand p = .PlainQuery)
    (hvs : s.vectorstore = some vs) (hcm : s.chat_model = some cm) :
    (handleChatTurn env s p).2.retrievalCalls = [(p, 10)] ∧
    (handleChatTurn env s p).2.completionCalls =
      [buildSystemPrompt (env.retrieve vs p 10).length
        (specContext (env.retrieve vs p 10)) p] := by
  obtain ⟨h1, h2, h3, h4⟩ := (classify_eq_plainQuery_iff p).mp hq
  have hcs := commandStage_no_trigger env s p h1 h2 h3 h4
  have hlog := ragStage_log_ready env p
    { s with messages := s.messages ++ [userMsg p] } vs cm hvs hcm
  rw [handleChatTurn_eq_of_not_processed env s p (by rw [hcs]), hcs]
  show ((TurnLog.merge {} (ragStage env p { s with messages := s.messages ++ [userMsg p] }).2).retrievalCalls = _) ∧
    ((TurnLog.merge {} (ragStage env p { s with messages := s.messages ++ [userMsg p] }).2).completionCalls = _)
  rw [TurnLog.nil_merge, hlog, intercalate_eq_specContext]
  exact ⟨rfl, rfl⟩

/-- C9 (witness at a concrete input): the ready session, a plain question,
and the two-chunk retriever of the test environment. -/
theorem C9_context_ordered_blankline_concat_witness :
    (handleChatTurn envA sReadyA "What does this lab report show?").2.retrievalCalls =
      [("What does this lab report show?", 10)] ∧
    (handleChatTurn envA sReadyA "What does this lab report show?").2.completionCalls =
      [buildSystemPrompt
        (envA.retrieve ⟨["c"]⟩ "What does this lab report show?" 10).length
        (specContext (envA.retrieve ⟨["c"]⟩ "What does this lab report show?" 10))
        "What does this lab report show?"] :=
  C9_context_ordered_blankline_concat envA sReadyA "What does this lab report show?"
    ⟨["c"]⟩ ⟨"k"⟩ (by decide) rfl rfl

/-- C10: which of the five command rules fires is invariant under letter
case of the input — every phrase test is evaluated on the lowercased
prompt and the only raw-prompt test is for `'@'`, which lowercasing
preserves; two prompts with the same lowercasing therefore select the
same rule. -/
theorem C10_rule_selection_case_invariant (s t : String)
    (h : pyLower s = pyLower t) :
    ruleOf (classifyCommand s) = ruleOf (classifyCommand t) := by
  have hat : strContains s "@" = strContains t "@" := by
    rw [strContains_at_pyLower s, strContains_at_pyLower t, h]
  have hsend : sendReportTrigger s = sendReportTrigger t := by
    unfold sendReportTrigger
    rw [h, hat]
  have hsup : supportTicketTrigger s = supportTicketTrigger t := by
    unfold supportTicketTrigger
    rw [h]
  have hs3 : processS3Trigger s = processS3Trigger t := by
    unfold processS3Trigger
    rw [h]
  have hsav : saveSessionTrigger s = saveSessionTrigger t := by
    unfold saveSessionTrigger
    rw [h]
  unfold classifyCommand
  rw [hsend, hsup, hs3, hsav]
  by_cases h1 : sendReportTrigger t = true
  · rw [if_pos h1, if_pos h1]
    cases hv1 : validate_email (extractEmail s) <;>
      cases hv2 : validate_email (extractEmail t) <;>
        simp [hv1, hv2, ruleOf]
  · rw [if_neg h1, if_neg h1]

/-- C10 (witness at a concrete case-variant pair). -/
theorem C10_rule_selection_case_invariant_witness :
    ruleOf (classifyCommand "SEND Report TO a@B.com") =
      ruleOf (classifyCommand "send report to a@b.com") :=
  C10_rule_selection_case_invariant "SEND Report TO a@B.com" "send report to a@b.com"
    (by decide)

end MediChat
